import Mathlib

/-!
Verification of the assignment scoring engine of the Intelligent Bug Triage
System (`services/ml_bug_triager.py`, class `MLBugTriager`).

Modelling conventions (shallow embedding):
* Python strings are lists of code points (`PyStr := List Nat`); the case
  mappings `str.lower` / `str.upper` are per-code-point expansions, exact on
  the ASCII range (which covers the program's entire fixed vocabulary and
  trigger words) and carrying the non-trivial full case mappings exercised
  in this development (U+00DF "ß" → "SS" and U+017F "ſ" → "S" for upper,
  U+0130 "İ" → "i" + combining dot for lower); other code points are left
  unchanged.  Full upper-casing can therefore create vocabulary terms out of
  non-ASCII input, exactly as in Python.
* Python floats are modelled as exact rationals (`ℚ`); every constant in the
  scoring formulas is a short decimal, so the arithmetic is exact.
* Python dicts (`developer_workload`, `historical_performance`, the profile
  map) are association lists in insertion order, with update-in-place
  semantics matching `d[k] = v`.
* Python's `list.sort(key=..., reverse=True)` is a stable sort by key; it is
  modelled by a stable insertion sort (stable sorting by a key is
  extensionally unique, and stability is proved below).
-/

/-- A Python string as a list of code points. -/
abbrev PyStr := List Nat

/-- Embed a Lean string literal as a `PyStr`. -/
def str (s : String) : PyStr := s.toList.map Char.toNat

/-- Python's `str.lower` on one code point, as a code-point expansion.  Exact
on the ASCII range; also carries the one-to-many full mapping
U+0130 "İ" → [U+0069, U+0307] ("i" plus combining dot above), under which
lower-casing produces ASCII letters from non-ASCII input.  Other code points
are left unchanged (a partial model of the Unicode table; as in Python, the
mapping is idempotent, and the case-insensitivity theorem below only relies
on exactness over ASCII). -/
def lowerChar (c : Nat) : List Nat :=
  if 65 ≤ c ∧ c ≤ 90 then [c + 32]
  else if c = 304 then [105, 775]
  else [c]

/-- Python's `str.upper` on one code point, as a code-point expansion.  Exact
on the ASCII range; also carries the full case mappings
U+00DF "ß" → "SS" and U+017F "ſ" → "S", under which upper-casing creates
ASCII letters out of non-ASCII input — the effect that breaks
`extract(s) == extract(s.upper())` on general strings.  Other code points
are left unchanged. -/
def upperChar (c : Nat) : List Nat :=
  if 97 ≤ c ∧ c ≤ 122 then [c - 32]
  else if c = 223 then [83, 83]
  else if c = 383 then [83]
  else [c]

/-- `text.lower()`. -/
def lowerStr (s : PyStr) : PyStr := s.flatMap lowerChar

/-- `text.upper()`. -/
def upperStr (s : PyStr) : PyStr := s.flatMap upperChar

/-- Auxiliary for substring search: does `pat` start `s`? -/
def isPrefixL : PyStr → PyStr → Bool
  | [], _ => true
  | _ :: _, [] => false
  | a :: ps, b :: qs => a == b && isPrefixL ps qs

/-- Python's `pat in s` substring containment test. -/
def containsSub (pat : PyStr) : PyStr → Bool
  | [] => pat.isEmpty
  | c :: rest => isPrefixL pat (c :: rest) || containsSub pat rest

/-- The five fixed category vocabularies of `_extract_technical_keywords`
(`tech_patterns`), flattened in the source's dict-insertion order:
languages, frameworks, databases, cloud, concepts. -/
def tech_patterns : List PyStr :=
  [str ("python"), str ("java"), str ("javascript"), str ("typescript"), str ("sql"),
   str ("c++"), str ("c#"), str ("ruby"), str ("php"), str ("go"),
   str ("react"), str ("angular"), str ("vue"), str ("django"), str ("flask"),
   str ("spring"), str ("node"), str ("express"), str ("fastapi"),
   str ("postgresql"), str ("mysql"), str ("mongodb"), str ("redis"),
   str ("elasticsearch"), str ("cassandra"),
   str ("aws"), str ("azure"), str ("gcp"), str ("docker"), str ("kubernetes"),
   str ("terraform"),
   str ("api"), str ("rest"), str ("graphql"), str ("authentication"),
   str ("authorization"), str ("security"), str ("performance"), str ("memory"),
   str ("crash")]

/-- `MLBugTriager._extract_technical_keywords`: lower-case the text once, then
collect every vocabulary term occurring as a substring.  The source wraps the
result in `list(set(...))`; the vocabulary has no duplicates, so the result
here is the same set of terms, listed in scan order (Python's set order is
unspecified; only membership and cardinality are consumed downstream). -/
def extract_technical_keywords (text : PyStr) : List PyStr :=
  tech_patterns.filter (fun k => containsSub k (lowerStr text))

/-- A raw bug record.  Field defaults are exactly the `bug_data.get(...)`
defaults applied throughout the source (severity→"Medium",
component→"General", others→empty string); an absent key and the default
value are indistinguishable to the program. -/
structure RawBug where
  title : PyStr := []
  description : PyStr := []
  severity : PyStr := str ("Medium")
  component : PyStr := str ("General")
  labels : PyStr := []
  stack_trace : PyStr := []

/-- The `severity_weights` dict lookup with default 0.5 in
`_calculate_bug_complexity`. -/
def severity_weights (sev : PyStr) : ℚ :=
  if sev = str ("Critical") then 1.0
  else if sev = str ("High") then 0.75
  else if sev = str ("Medium") then 0.5
  else if sev = str ("Low") then 0.25
  else 0.5

/-- `MLBugTriager._calculate_bug_complexity`: additive contributions from
severity, description length, stack-trace presence and keyword count, clamped
by `min(complexity, 1.0)`. -/
def calculate_bug_complexity (bug : RawBug) : ℚ :=
  let c1 : ℚ := 0.0 + severity_weights bug.severity
  let c2 : ℚ := c1 + (if 500 < bug.description.length then 0.3
    else if 200 < bug.description.length then 0.15 else 0)
  let c3 : ℚ := c2 + (if 0 < bug.stack_trace.length then 0.2 else 0)
  let kwCount :=
    (extract_technical_keywords (bug.title ++ str (" ") ++ bug.description)).length
  let c4 : ℚ := c3 + min ((kwCount : ℚ) * 0.1) 0.3
  min c4 1.0

/-- Bug features as produced by `extract_features_from_bug`. -/
structure BugFeatures where
  text : PyStr
  title : PyStr
  description : PyStr
  severity : PyStr
  component : PyStr
  labels : PyStr
  tech_keywords : List PyStr
  complexity_score : ℚ
  text_length : Nat
  has_stack_trace : Bool

/-- `MLBugTriager.extract_features_from_bug`: combine the text fields
(`f"{title} {description} {labels} {stack_trace}"`), scan for technical
keywords, and compute the complexity score. -/
def extract_features_from_bug (bug : RawBug) : BugFeatures :=
  let combined := bug.title ++ str (" ") ++ bug.description ++ str (" ")
    ++ bug.labels ++ str (" ") ++ bug.stack_trace
  { text := combined
    title := bug.title
    description := bug.description
    severity := bug.severity
    component := bug.component
    labels := bug.labels
    tech_keywords := extract_technical_keywords combined
    complexity_score := calculate_bug_complexity bug
    text_length := combined.length
    has_stack_trace := 0 < bug.stack_trace.length }

/-- A raw developer record; field defaults are the `dev.get(...)` defaults
of `build_developer_profiles`. -/
structure RawDev where
  name : PyStr := []
  skills : PyStr := []
  contributions : PyStr := []
  modules : List PyStr := []

/-- An entry of the `historical_performance` map.  `build_developer_profiles`
defaults a missing entry to `{avg_resolution_time: 0, success_rate: 0.8}`;
`update_historical_performance` creates entries carrying the counter fields
as well.  Scoring reads only `success_rate` (profiles also carry
`avg_resolution_time`, which no scoring component reads). -/
structure Performance where
  total_assignments : Nat := 0
  successful_assignments : Nat := 0
  total_resolution_time : ℚ := 0
  avg_resolution_time : ℚ := 0
  success_rate : ℚ := 0.8

/-- A developer profile as built by `build_developer_profiles`. -/
structure DevProfile where
  name : PyStr
  skills : PyStr
  modules : List PyStr
  expertise_domains : List PyStr
  experience_level : PyStr
  current_workload : Nat
  historical_performance : Performance

/-- The mutable per-instance state of `MLBugTriager`: the
`developer_workload`, `developer_expertise` and `historical_performance`
dicts, as insertion-ordered association lists. -/
structure Engine where
  developer_workload : List (PyStr × Nat)
  developer_expertise : List (PyStr × DevProfile)
  historical_performance : List (PyStr × Performance)

/-- A freshly constructed `MLBugTriager` (all three dicts empty). -/
def initEngine : Engine := ⟨[], [], []⟩

/-- Python `d.get(k, default)` on an association list. -/
def alistGetD {β : Type} (l : List (PyStr × β)) (k : PyStr) (d : β) : β :=
  match l with
  | [] => d
  | (k', v) :: rest => if k' = k then v else alistGetD rest k d

/-- Python `d[k] = v` on an association list: update in place if the key is
present (keeping its position), otherwise append. -/
def alistInsert {β : Type} (k : PyStr) (v : β) : List (PyStr × β) → List (PyStr × β)
  | [] => [(k, v)]
  | (k', v') :: rest =>
    if k' = k then (k', v) :: rest else (k', v') :: alistInsert k v rest

/-- The loop body of `build_developer_profiles` for one developer record:
lower-case skills and contributions, extract keywords from
`f"{skills} {contributions}"`, union with lower-cased modules
(`list(set(...))` modelled by `dedup`), infer the experience level from the
trigger substrings, and pull workload/performance from the engine state. -/
def buildProfile (e : Engine) (dev : RawDev) : DevProfile :=
  let skills := lowerStr dev.skills
  let contributions := lowerStr dev.contributions
  let combined := skills ++ str (" ") ++ contributions
  let tech := extract_technical_keywords combined
  let domains := (tech ++ dev.modules.map lowerStr).dedup
  let level := if containsSub (str ("several")) contributions
      || containsSub (str ("significantly")) contributions
    then str ("senior") else str ("mid")
  { name := dev.name
    skills := skills
    modules := dev.modules
    expertise_domains := domains
    experience_level := level
    current_workload := alistGetD e.developer_workload dev.name 0
    historical_performance := alistGetD e.historical_performance dev.name {} }

/-- `MLBugTriager.build_developer_profiles`: build the profile dict in input
order (name collisions: last write wins, in place) and write each profile
into the `developer_expertise` cache. -/
def build_developer_profiles (e : Engine) (devs : List RawDev) :
    List (PyStr × DevProfile) × Engine :=
  devs.foldl
    (fun acc dev =>
      let p := buildProfile acc.2 dev
      (alistInsert dev.name p acc.1,
       { acc.2 with
         developer_expertise := alistInsert dev.name p acc.2.developer_expertise }))
    ([], e)

/-- Expertise-matching component (40% weight) of `calculate_developer_scores`.
`kw` is the bug's keyword set (`set(bug_features['tech_keywords'])`, modelled
as a deduplicated list).  The Python conditional expression
`expertise_overlap / len(bug_keywords) if bug_keywords else 0` is embedded as
the inner `if`; the whole component is added only when `expertise_overlap > 0`. -/
def expertise_contribution (kw domains : List PyStr) : ℚ :=
  if 0 < (kw.filter (fun k => decide (k ∈ domains))).length then
    (min (if kw = [] then 0
          else ((kw.filter (fun k => decide (k ∈ domains))).length : ℚ) / (kw.length : ℚ))
       1.0) * 0.4
  else 0

/-- Module/component-matching component (30% weight): the lower-cased bug
component is a member of the lower-cased module list. -/
def module_contribution (bug_component : PyStr) (modules : List PyStr) : ℚ :=
  if bug_component ∈ modules.map lowerStr then 0.3 else 0

/-- Workload-balancing component (15% weight):
`load_factor = 1.0 - current_load / max_load` with `max_load = 10`, not
clamped below zero. -/
def workload_contribution (current_load : Nat) : ℚ :=
  (1.0 - (current_load : ℚ) / 10) * 0.15

/-- Experience-vs-complexity component (10% weight) with the source's
`if`/`elif` structure. -/
def experience_contribution (severity : PyStr) (complexity : ℚ) (level : PyStr) : ℚ :=
  if (severity = str ("Critical") ∨ severity = str ("High")) ∧ level = str ("senior")
    then 0.1
  else if complexity < 0.5 ∧ level = str ("mid") then 0.05
  else 0

/-- Historical-performance component (5% weight). -/
def performance_contribution (success_rate : ℚ) : ℚ :=
  if 0.85 < success_rate then 0.05 else 0

/-- The per-developer raw score of `calculate_developer_scores`: the five
weighted components summed in source order, then `score = min(score, 1.0)`. -/
def developer_score (bf : BugFeatures) (profile : DevProfile) : ℚ :=
  min (expertise_contribution bf.tech_keywords.dedup profile.expertise_domains
    + module_contribution (lowerStr bf.component) profile.modules
    + workload_contribution profile.current_workload
    + experience_contribution bf.severity bf.complexity_score profile.experience_level
    + performance_contribution profile.historical_performance.success_rate) 1.0

/-- `confidence = 0.30 + (score * 0.65)`. -/
def developer_confidence (bf : BugFeatures) (profile : DevProfile) : ℚ :=
  0.30 + developer_score bf profile * 0.65

/-- Python `sep.join(parts)`. -/
def joinSep (sep : PyStr) : List PyStr → PyStr
  | [] => []
  | [x] => x
  | x :: y :: rest => x ++ sep ++ joinSep sep (y :: rest)

/-- The reason string built alongside the score: one fragment per triggered
component in source order, joined by `"; "`, or the fixed fallback text.
`matched_skills` (a Python set sliced by `[:3]`) is modelled in keyword scan
order; its exact order inside the fragment is unspecified in Python. -/
def developer_reason (bf : BugFeatures) (profile : DevProfile) : PyStr :=
  let kw := bf.tech_keywords.dedup
  let matched := (kw.filter (fun k => decide (k ∈ profile.expertise_domains))).take 3
  let r1 : List PyStr :=
    if 0 < (kw.filter (fun k => decide (k ∈ profile.expertise_domains))).length
        ∧ matched ≠ []
      then [str ("Expertise: ") ++ joinSep (str (", ")) matched] else []
  let r2 : List PyStr :=
    if lowerStr bf.component ∈ profile.modules.map lowerStr
      then [str ("Module expert: ") ++ bf.component] else []
  let r3 : List PyStr :=
    if profile.current_workload < 3 then [str ("Available capacity")] else []
  let r4 : List PyStr :=
    if (bf.severity = str ("Critical") ∨ bf.severity = str ("High"))
        ∧ profile.experience_level = str ("senior")
      then [str ("Senior dev for critical bug")] else []
  let r5 : List PyStr :=
    if 0.85 < profile.historical_performance.success_rate
      then [str ("High success rate")] else []
  let reasons := r1 ++ r2 ++ r3 ++ r4 ++ r5
  if reasons = [] then str ("General assignment based on availability")
  else joinSep (str ("; ")) reasons

/-- A scored candidate `(developer_name, confidence, reason)`. -/
abbrev Scored := PyStr × ℚ × PyStr

/-- The unsorted score list, one candidate per profile in supplied order
(the loop over `developer_profiles.items()`). -/
def raw_scores (bf : BugFeatures) (profiles : List (PyStr × DevProfile)) :
    List Scored :=
  profiles.map (fun np => (np.1, developer_confidence bf np.2, developer_reason bf np.2))

/-- One step of the stable descending insertion sort modelling
`scores.sort(key=lambda x: x[1], reverse=True)`: `x` is placed before the
first element whose confidence is `≤` its own, so earlier input elements
stay ahead of later elements with equal confidence. -/
def insertScore (x : Scored) : List Scored → List Scored
  | [] => [x]
  | y :: ys => if y.2.1 ≤ x.2.1 then x :: y :: ys else y :: insertScore x ys

/-- Stable sort by confidence, descending (Python's `list.sort` is stable;
stable sorting by a key determines the output uniquely). -/
def sortScoresDesc : List Scored → List Scored
  | [] => []
  | x :: xs => insertScore x (sortScoresDesc xs)

/-- `MLBugTriager.calculate_developer_scores`: score every profile, then sort
by confidence descending. -/
def calculate_developer_scores (bf : BugFeatures)
    (profiles : List (PyStr × DevProfile)) : List Scored :=
  sortScoresDesc (raw_scores bf profiles)

/-- Round-half-to-even on an exact rational, the tie rule of Python's
built-in `round`.  (Python rounds binary floats; on the exact rationals of
this model the ties-to-even rule is the faithful counterpart.) -/
def roundHalfEven (x : ℚ) : ℤ :=
  let n := ⌊x⌋
  if x - n < 1/2 then n
  else if 1/2 < x - n then n + 1
  else if n % 2 = 0 then n else n + 1

/-- Python `round(c, 2)`. -/
def round2 (q : ℚ) : ℚ := (roundHalfEven (q * 100) : ℚ) / 100

/-- The result dict of `assign_bug_to_developer`.  The fallback branch of the
source builds a dict *without* an `alternatives` key, while the normal branch
includes one; the field is therefore an `Option`, with `none` meaning the key
is absent. -/
structure AssignResult where
  developer : PyStr
  confidence : ℚ
  reason : PyStr
  alternatives : Option (List Scored)

/-- `MLBugTriager.assign_bug_to_developer`: extract features, build profiles,
score, then either return the fixed fallback (empty score list) or pick the
top candidate, increment its workload counter, and report the winner with
rounded confidence plus up to three rounded runner-ups
(`developer_scores[1:4]`). -/
def assign_bug_to_developer (e : Engine) (bug : RawBug) (devs : List RawDev) :
    AssignResult × Engine :=
  let bf := extract_features_from_bug bug
  let built := build_developer_profiles e devs
  let scores := calculate_developer_scores bf built.1
  match scores with
  | [] =>
    ({ developer := str ("Unassigned")
       confidence := 0.30
       reason := str ("No suitable developer found")
       alternatives := none }, built.2)
  | (best, conf, reason) :: rest =>
    let e1 := built.2
    let e2 := { e1 with
      developer_workload :=
        alistInsert best (alistGetD e1.developer_workload best 0 + 1)
          e1.developer_workload }
    ({ developer := best
       confidence := round2 conf
       reason := reason
       alternatives := some ((rest.take 3).map (fun t => (t.1, round2 t.2.1, t.2.2))) },
     e2)

/-- `MLBugTriager.update_historical_performance`: create the default record on
first sight of a developer, then update the counters and derived averages. -/
def update_historical_performance (e : Engine) (developer : PyStr)
    (resolution_time : ℚ) (success : Bool) : Engine :=
  let perf0 := alistGetD e.historical_performance developer
    { total_assignments := 0, successful_assignments := 0,
      total_resolution_time := 0, avg_resolution_time := 0, success_rate := 0.8 }
  let ta := perf0.total_assignments + 1
  let sa := perf0.successful_assignments + (if success then 1 else 0)
  let tt := perf0.total_resolution_time + resolution_time
  let perf1 : Performance :=
    { total_assignments := ta, successful_assignments := sa,
      total_resolution_time := tt, avg_resolution_time := tt / (ta : ℚ),
      success_rate := (sa : ℚ) / (ta : ℚ) }
  { e with historical_performance := alistInsert developer perf1 e.historical_performance }

/-- The core operations that touch an engine instance's mutable state.  (The
dormant ML-training path `train_ml_model` writes only the fitted model
artifacts, never the three state dicts, and is outside the scoring core.) -/
inductive CoreOp where
  | assignOp (bug : RawBug) (devs : List RawDev)
  | buildOp (devs : List RawDev)
  | updatePerfOp (developer : PyStr) (resolution_time : ℚ) (success : Bool)

/-- Effect of one core operation on the engine state. -/
def runOp (e : Engine) : CoreOp → Engine
  | .assignOp bug devs => (assign_bug_to_developer e bug devs).2
  | .buildOp devs => (build_developer_profiles e devs).2
  | .updatePerfOp d t s => update_historical_performance e d t s

/-- Effect of a sequence of core operations. -/
def runOps (e : Engine) : List CoreOp → Engine
  | [] => e
  | op :: ops => runOps (runOp e op) ops

/-- The stored `currentWorkload` counter of a developer name
(`self.developer_workload.get(name, 0)`). -/
def workload_of (e : Engine) (name : PyStr) : Nat :=
  alistGetD e.developer_workload name 0

/-- Severity weight as worded in the specification (refinement counterpart of
`severity_weights`, for the complexity-formula claim). -/
def spec_severity_weight (sev : PyStr) : ℚ :=
  if sev = str ("Critical") then 1
  else if sev = str ("High") then 0.75
  else if sev = str ("Medium") then 0.5
  else if sev = str ("Low") then 0.25
  else 0.5

/-- Length bonus as worded in the specification. -/
def spec_length_bonus (bug : RawBug) : ℚ :=
  if 500 < bug.description.length then 0.3
  else if 200 < bug.description.length then 0.15
  else 0

/-- Stack-trace bonus as worded in the specification: 0.2 iff the stack trace
is non-empty. -/
def spec_stack_bonus (bug : RawBug) : ℚ :=
  if bug.stack_trace ≠ [] then 0.2 else 0

/-- Keyword bonus as worded in the specification:
`min(0.1 * number of technical keywords in title+description, 0.3)`. -/
def spec_keyword_bonus (bug : RawBug) : ℚ :=
  min (0.1 * ((extract_technical_keywords
    (bug.title ++ str (" ") ++ bug.description)).length : ℚ)) 0.3

/-- The concrete bug of the specification's Frank scenario (no `component`
key, hence the source's default "General"). -/
def c3bug : RawBug :=
  { title := str ("Login broken")
    description := str ("users cannot authenticate via OAuth")
    severity := str ("Critical")
    stack_trace := str ("NullPointerException") }

/-- The concrete developer of the Frank scenario. -/
def c3dev : RawDev :=
  { name := str ("Frank")
    skills := str ("security, authentication")
    modules := [str ("Auth")] }

/-- Frank's profile as built by a fresh engine. -/
def frankProfile : DevProfile := buildProfile initEngine c3dev

/-- A bug record with every field defaulted. -/
def exBug : RawBug := {}

/-- A minimal developer record. -/
def exDev : RawDev := { name := str ("a") }

/-- The profile the fresh engine builds for `exDev`. -/
def exProfile : DevProfile := buildProfile initEngine exDev

/-- A profile with `currentWorkload = 20`, as can arise after twenty winning
assignments to the same developer (the counter only ever increases). -/
def w20Profile : DevProfile :=
  { name := str ("w")
    skills := []
    modules := []
    expertise_domains := []
    experience_level := str ("mid")
    current_workload := 20
    historical_performance := {} }

/-- Lower-casing one code point is idempotent (each code point produced by
`lowerChar` is itself lower-stable), as in Python. -/
theorem lowerChar_lowerChar (c : Nat) :
    (lowerChar c).flatMap lowerChar = lowerChar c := by
  by_cases h1 : 65 ≤ c ∧ c ≤ 90
  · have e1 : lowerChar c = [c + 32] := by
      unfold lowerChar
      rw [if_pos h1]
    have e2 : lowerChar (c + 32) = [c + 32] := by
      unfold lowerChar
      rw [if_neg (by omega), if_neg (by omega)]
    simp [e1, e2]
  · by_cases h2 : c = 304
    · subst h2
      decide
    · have e1 : lowerChar c = [c] := by
        unfold lowerChar
        rw [if_neg h1, if_neg h2]
      simp [e1]

/-- On ASCII code points, upper-casing then lower-casing agrees with
lower-casing directly (outside ASCII this fails: "ß" upper-cases to "SS",
which lower-cases to "ss", not back to "ß"). -/
theorem lowerChar_upperChar_ascii (c : Nat) (h : c < 128) :
    (upperChar c).flatMap lowerChar = lowerChar c := by
  by_cases h1 : 97 ≤ c ∧ c ≤ 122
  · have e1 : upperChar c = [c - 32] := by
      unfold upperChar
      rw [if_pos h1]
    have e2 : lowerChar (c - 32) = [c] := by
      unfold lowerChar
      rw [if_pos (by omega)]
      congr 1
      omega
    have e3 : lowerChar c = [c] := by
      unfold lowerChar
      rw [if_neg (by omega), if_neg (by omega)]
    simp [e1, e2, e3]
  · have e1 : upperChar c = [c] := by
      unfold upperChar
      rw [if_neg h1, if_neg (by omega), if_neg (by omega)]
    simp [e1]

/-- `s.lower().lower() == s.lower()`. -/
theorem lowerStr_lowerStr (s : PyStr) : lowerStr (lowerStr s) = lowerStr s := by
  induction s with
  | nil => rfl
  | cons c cs ih =>
    simp only [lowerStr, List.flatMap_cons, List.flatMap_append] at ih ⊢
    rw [lowerChar_lowerChar, ih]

/-- `s.upper().lower() == s.lower()` for strings of ASCII code points. -/
theorem lowerStr_upperStr_ascii (s : PyStr) (h : ∀ c ∈ s, c < 128) :
    lowerStr (upperStr s) = lowerStr s := by
  induction s with
  | nil => rfl
  | cons c cs ih =>
    have hc : c < 128 := h c (List.mem_cons_self c cs)
    have ih' := ih fun d hd => h d (List.mem_cons_of_mem c hd)
    simp only [lowerStr, upperStr, List.flatMap_cons, List.flatMap_append] at ih' ⊢
    rw [lowerChar_upperChar_ascii c hc, ih']

/-- Reading back the key just written (`d[k] = v; d.get(k, x) == v`). -/
theorem alistGetD_insert_self {β : Type} (l : List (PyStr × β)) (k : PyStr) (v : β)
    (d : β) : alistGetD (alistInsert k v l) k d = v := by
  induction l with
  | nil => simp [alistInsert, alistGetD]
  | cons hd tl ih =>
    obtain ⟨k', v'⟩ := hd
    by_cases h : k' = k <;> simp [alistInsert, alistGetD, h, ih]

/-- Writing one key leaves every other key's lookup unchanged. -/
theorem alistGetD_insert_ne {β : Type} (l : List (PyStr × β)) (k k' : PyStr) (v : β)
    (d : β) (h : k ≠ k') : alistGetD (alistInsert k v l) k' d = alistGetD l k' d := by
  induction l with
  | nil => simp [alistInsert, alistGetD, h]
  | cons hd tl ih =>
    obtain ⟨k0, v0⟩ := hd
    by_cases h0 : k0 = k
    · subst h0
      simp [alistInsert, alistGetD, h]
    · simp [alistInsert, alistGetD, h0, ih]

/-- `build_developer_profiles` never touches the workload dict. -/
theorem build_preserves_workload (e : Engine) (devs : List RawDev) :
    (build_developer_profiles e devs).2.developer_workload = e.developer_workload := by
  suffices h : ∀ (acc : List (PyStr × DevProfile) × Engine),
      ((devs.foldl
        (fun acc dev =>
          let p := buildProfile acc.2 dev
          (alistInsert dev.name p acc.1,
           { acc.2 with
             developer_expertise := alistInsert dev.name p acc.2.developer_expertise }))
        acc).2).developer_workload = acc.2.developer_workload by
    exact h ([], e)
  induction devs with
  | nil => intro acc; rfl
  | cons dev devs ih => intro acc; rw [List.foldl_cons, ih]

/-- Membership in an insertion step. -/
theorem mem_insertScore {x z : Scored} {l : List Scored} :
    z ∈ insertScore x l ↔ z = x ∨ z ∈ l := by
  induction l with
  | nil => simp [insertScore]
  | cons y ys ih =>
    by_cases h : y.2.1 ≤ x.2.1
    · simp [insertScore, h]
    · simp [insertScore, h, ih]
      tauto

/-- The sort is a permutation at the level of membership. -/
theorem mem_sortScoresDesc {z : Scored} {l : List Scored} :
    z ∈ sortScoresDesc l ↔ z ∈ l := by
  induction l with
  | nil => simp [sortScoresDesc]
  | cons x xs ih => simp [sortScoresDesc, mem_insertScore, ih]

/-- Inserting into a list sorted by confidence descending keeps it sorted. -/
theorem pairwise_insertScore {x : Scored} {l : List Scored}
    (h : l.Pairwise (fun a b => b.2.1 ≤ a.2.1)) :
    (insertScore x l).Pairwise (fun a b => b.2.1 ≤ a.2.1) := by
  induction l with
  | nil => simp [insertScore]
  | cons y ys ih =>
    rw [List.pairwise_cons] at h
    obtain ⟨hy, hys⟩ := h
    by_cases hle : y.2.1 ≤ x.2.1
    · rw [insertScore]
      simp only [hle, if_true]
      rw [List.pairwise_cons]
      constructor
      · intro z hz
        rcases List.mem_cons.mp hz with hz | hz
        · exact hz ▸ hle
        · exact le_trans (hy z hz) hle
      · rw [List.pairwise_cons]
        exact ⟨hy, hys⟩
    · rw [insertScore]
      simp only [hle, if_false]
      rw [List.pairwise_cons]
      constructor
      · intro z hz
        rcases mem_insertScore.mp hz with hz | hz
        · exact hz ▸ le_of_lt (lt_of_not_le hle)
        · exact hy z hz
      · exact ih hys

/-- The sorted score list is pairwise non-increasing in confidence. -/
theorem sortScoresDesc_pairwise (l : List Scored) :
    (sortScoresDesc l).Pairwise (fun a b => b.2.1 ≤ a.2.1) := by
  induction l with
  | nil => simp [sortScoresDesc]
  | cons x xs ih => exact pairwise_insertScore ih

/-- Inserting an element either prepends it to the elements of its own
confidence class (when it has that confidence) or leaves the class untouched:
every element passed over on the way in has strictly larger confidence. -/
theorem filter_insertScore (q : ℚ) (x : Scored) (l : List Scored) :
    (insertScore x l).filter (fun t => decide (t.2.1 = q)) =
      if x.2.1 = q then x :: l.filter (fun t => decide (t.2.1 = q))
      else l.filter (fun t => decide (t.2.1 = q)) := by
  induction l with
  | nil =>
    by_cases hx : x.2.1 = q <;> simp [insertScore, List.filter, hx]
  | cons y ys ih =>
    rw [insertScore]
    by_cases hle : y.2.1 ≤ x.2.1
    · rw [if_pos hle]
      by_cases hx : x.2.1 = q
      · simp [List.filter_cons, hx]
      · simp [List.filter_cons, hx]
    · rw [if_neg hle]
      by_cases hy : y.2.1 = q
      · by_cases hx : x.2.1 = q
        · exact absurd (le_of_eq (hy.trans hx.symm)) hle
        · simp [List.filter_cons, hy, hx, ih]
      · simp [List.filter_cons, hy, ih]

/-- Stability of the sort: each confidence class keeps its input order. -/
theorem sortScoresDesc_filter (q : ℚ) (l : List Scored) :
    (sortScoresDesc l).filter (fun t => decide (t.2.1 = q)) =
      l.filter (fun t => decide (t.2.1 = q)) := by
  induction l with
  | nil => rfl
  | cons x xs ih =>
    rw [sortScoresDesc, filter_insertScore]
    by_cases hx : x.2.1 = q <;> simp [List.filter_cons, hx, ih]

/-- The expertise component contributes between 0 and 0.4. -/
theorem expertise_contribution_bounds (kw domains : List PyStr) :
    0 ≤ expertise_contribution kw domains ∧ expertise_contribution kw domains ≤ 0.4 := by
  unfold expertise_contribution
  split_ifs with h1 h2
  · constructor
    · apply mul_nonneg _ (by norm_num)
      exact le_min (by norm_num) (by norm_num)
    · calc _ ≤ (1.0 : ℚ) * 0.4 :=
          mul_le_mul_of_nonneg_right (min_le_right _ _) (by norm_num)
      _ = 0.4 := by norm_num
  · constructor
    · apply mul_nonneg _ (by norm_num)
      apply le_min _ (by norm_num)
      positivity
    · calc _ ≤ (1.0 : ℚ) * 0.4 :=
          mul_le_mul_of_nonneg_right (min_le_right _ _) (by norm_num)
      _ = 0.4 := by norm_num
  · norm_num

/-- The module component contributes 0 or 0.3. -/
theorem module_contribution_bounds (c : PyStr) (modules : List PyStr) :
    0 ≤ module_contribution c modules ∧ module_contribution c modules ≤ 0.3 := by
  unfold module_contribution
  split_ifs <;> norm_num

/-- The workload component contributes at most 0.15 (it is unbounded below:
`load_factor` is not clamped at 0). -/
theorem workload_contribution_le (w : Nat) : workload_contribution w ≤ 0.15 := by
  unfold workload_contribution
  have h : (0 : ℚ) ≤ (w : ℚ) / 10 := by positivity
  nlinarith

/-- The workload component is non-negative exactly while the counter stays
within the fixed capacity of 10. -/
theorem workload_contribution_nonneg {w : Nat} (h : w ≤ 10) :
    0 ≤ workload_contribution w := by
  unfold workload_contribution
  have h10 : (w : ℚ) ≤ 10 := by exact_mod_cast h
  nlinarith

/-- The experience component contributes 0, 0.05 or 0.1. -/
theorem experience_contribution_bounds (sev : PyStr) (cx : ℚ) (lvl : PyStr) :
    0 ≤ experience_contribution sev cx lvl ∧ experience_contribution sev cx lvl ≤ 0.1 := by
  unfold experience_contribution
  split_ifs <;> norm_num

/-- The historical-performance component contributes 0 or 0.05. -/
theorem performance_contribution_bounds (r : ℚ) :
    0 ≤ performance_contribution r ∧ performance_contribution r ≤ 0.05 := by
  unfold performance_contribution
  split_ifs <;> norm_num

/-- The clamped score never exceeds 1, so confidence never exceeds 0.95. -/
theorem developer_confidence_le (bf : BugFeatures) (p : DevProfile) :
    developer_confidence bf p ≤ 0.95 := by
  unfold developer_confidence
  have h : developer_score bf p ≤ 1.0 := min_le_right _ _
  nlinarith

/-- While the profile's workload counter is within capacity, every component
is non-negative, so confidence stays at or above 0.30. -/
theorem developer_confidence_ge {bf : BugFeatures} {p : DevProfile}
    (h : p.current_workload ≤ 10) : 0.30 ≤ developer_confidence bf p := by
  unfold developer_confidence developer_score
  have h1 := expertise_contribution_bounds bf.tech_keywords.dedup p.expertise_domains
  have h2 := module_contribution_bounds (lowerStr bf.component) p.modules
  have h3 := workload_contribution_nonneg h
  have h4 := experience_contribution_bounds bf.severity bf.complexity_score
    p.experience_level
  have h5 := performance_contribution_bounds p.historical_performance.success_rate
  have hmin : (0 : ℚ) ≤ min (expertise_contribution bf.tech_keywords.dedup p.expertise_domains
      + module_contribution (lowerStr bf.component) p.modules
      + workload_contribution p.current_workload
      + experience_contribution bf.severity bf.complexity_score p.experience_level
      + performance_contribution p.historical_performance.success_rate) 1.0 := by
    apply le_min _ (by norm_num)
    linarith [h1.1, h2.1, h4.1, h5.1]
  nlinarith

/-- Effect of one assignment on the workload dict: unchanged on the fallback
path (the result without an `alternatives` key), and exactly the winner's
counter incremented by 1 otherwise. -/
theorem assign_workload (e : Engine) (bug : RawBug) (devs : List RawDev)
    (name : PyStr) :
    workload_of (assign_bug_to_developer e bug devs).2 name =
      workload_of e name +
        (if (assign_bug_to_developer e bug devs).1.alternatives = none then 0
         else if (assign_bug_to_developer e bug devs).1.developer = name then 1
         else 0) := by
  have hb := build_preserves_workload e devs
  rcases h : calculate_developer_scores (extract_features_from_bug bug)
      (build_developer_profiles e devs).1 with _ | ⟨⟨best, conf, reason⟩, rest⟩
  · simp only [assign_bug_to_developer, h]
    simp [workload_of, hb]
  · simp only [assign_bug_to_developer, h]
    by_cases hn : best = name
    · subst hn
      simp [workload_of, alistGetD_insert_self, hb]
    · simp [workload_of, alistGetD_insert_ne _ _ _ _ _ hn, hb, hn]

/-- `build_developer_profiles` leaves every workload counter unchanged. -/
theorem build_workload_of (e : Engine) (devs : List RawDev) (name : PyStr) :
    workload_of (build_developer_profiles e devs).2 name = workload_of e name := by
  unfold workload_of
  rw [build_preserves_workload]

/-- `update_historical_performance` leaves every workload counter unchanged. -/
theorem update_workload_of (e : Engine) (d : PyStr) (t : ℚ) (s : Bool)
    (name : PyStr) :
    workload_of (update_historical_performance e d t s) name = workload_of e name := rfl

/-- No single core operation decreases any workload counter. -/
theorem runOp_workload_mono (e : Engine) (op : CoreOp) (name : PyStr) :
    workload_of e name ≤ workload_of (runOp e op) name := by
  cases op with
  | assignOp bug devs =>
    show workload_of e name ≤ workload_of (assign_bug_to_developer e bug devs).2 name
    rw [assign_workload]
    exact Nat.le_add_right _ _
  | buildOp devs => exact le_of_eq (build_workload_of e devs name).symm
  | updatePerfOp d t s => exact le_of_eq (update_workload_of e d t s name).symm

/-- No sequence of core operations decreases any workload counter. -/
theorem runOps_workload_mono (ops : List CoreOp) (e : Engine) (name : PyStr) :
    workload_of e name ≤ workload_of (runOps e ops) name := by
  induction ops generalizing e with
  | nil => exact le_refl _
  | cons op ops ih =>
    exact le_trans (runOp_workload_mono e op name) (ih (runOp e op))

/-- The default bug text contains no vocabulary term. -/
theorem ex_bf_keywords : (extract_features_from_bug exBug).tech_keywords = [] := by
  decide

/-- Complexity of the all-default bug: only the Medium severity weight. -/
theorem ex_bf_complexity : (extract_features_from_bug exBug).complexity_score = 0.5 := by
  have hkw : extract_technical_keywords (str (" ")) = [] := by decide
  norm_num +decide [extract_features_from_bug, calculate_bug_complexity, severity_weights,
    exBug, hkw]

/-- Confidence of the minimal developer on the all-default bug: only the
workload component fires, giving `0.30 + 0.15 * 0.65 = 0.3975`. -/
theorem ex_conf_eval :
    developer_confidence (extract_features_from_bug exBug) exProfile = 159/400 := by
  have hdom : exProfile.expertise_domains = [] := by decide
  have hlev : exProfile.experience_level = str ("mid") := by decide
  have hwl : exProfile.current_workload = 0 := rfl
  have hmods : exProfile.modules = [] := rfl
  have hsr : exProfile.historical_performance.success_rate = 0.8 := rfl
  have hsev : (extract_features_from_bug exBug).severity = str ("Medium") := rfl
  norm_num +decide [developer_confidence, developer_score, expertise_contribution,
    module_contribution, workload_contribution, experience_contribution,
    performance_contribution, ex_bf_keywords, hdom, hlev, hwl, hmods, hsr, hsev,
    ex_bf_complexity]

/-- Reason string of the minimal developer on the all-default bug. -/
theorem ex_reason_eval :
    developer_reason (extract_features_from_bug exBug) exProfile
      = str ("Available capacity") := by
  have hdom : exProfile.expertise_domains = [] := by decide
  have hlev : exProfile.experience_level = str ("mid") := by decide
  have hwl : exProfile.current_workload = 0 := rfl
  have hmods : exProfile.modules = [] := rfl
  have hsr : exProfile.historical_performance.success_rate = 0.8 := rfl
  have hsev : (extract_features_from_bug exBug).severity = str ("Medium") := rfl
  norm_num +decide [developer_reason, joinSep, ex_bf_keywords, hdom, hlev, hwl, hmods,
    hsr, hsev]

/-- Full score list for the minimal one-developer roster on the default bug. -/
theorem ex_scores_eval :
    calculate_developer_scores (extract_features_from_bug exBug)
      (build_developer_profiles initEngine [exDev]).1
    = [(str ("a"), 159/400, str ("Available capacity"))] := by
  have hprof : (build_developer_profiles initEngine [exDev]).1
      = [(str ("a"), exProfile)] := rfl
  rw [hprof]
  simp [calculate_developer_scores, raw_scores, sortScoresDesc, insertScore,
    ex_conf_eval, ex_reason_eval]

/-- The Frank-scenario bug text contains no vocabulary term: "authenticate"
does not contain the vocabulary word "authentication". -/
theorem frank_bf_keywords : (extract_features_from_bug c3bug).tech_keywords = [] := by
  decide

/-- Complexity of the Frank-scenario bug: `min(1.0 + 0.2, 1.0) = 1`. -/
theorem frank_bf_complexity :
    (extract_features_from_bug c3bug).complexity_score = 1 := by
  have hk13 : extract_technical_keywords
      (str ("Login broken") ++ (str (" ") ++ str ("users cannot authenticate via OAuth")))
      = [] := by decide
  norm_num +decide [extract_features_from_bug, calculate_bug_complexity, severity_weights,
    c3bug, hk13]

/-- The expertise component contributes nothing in the Frank scenario. -/
theorem frank_expertise_zero :
    expertise_contribution (extract_features_from_bug c3bug).tech_keywords.dedup
      frankProfile.expertise_domains = 0 := by
  rw [frank_bf_keywords]
  simp [expertise_contribution]

/-- The module component contributes nothing in the Frank scenario: the bug's
component defaults to "General", which is not among Frank's modules. -/
theorem frank_module_zero :
    module_contribution (lowerStr (extract_features_from_bug c3bug).component)
      frankProfile.modules = 0 := by
  have hmods : frankProfile.modules = [str ("Auth")] := rfl
  have hcomp : (extract_features_from_bug c3bug).component = str ("General") := rfl
  rw [hmods, hcomp]
  norm_num +decide [module_contribution]

/-- Frank's confidence in the scenario: only the workload component fires,
`0.30 + 0.15 * 0.65 = 0.3975`. -/
theorem frank_conf_eval :
    developer_confidence (extract_features_from_bug c3bug) frankProfile = 159/400 := by
  have hdom : frankProfile.expertise_domains
      = [str ("authentication"), str ("security"), str ("auth")] := by decide
  have hlev : frankProfile.experience_level = str ("mid") := by decide
  have hwl : frankProfile.current_workload = 0 := rfl
  have hmods : frankProfile.modules = [str ("Auth")] := rfl
  have hsr : frankProfile.historical_performance.success_rate = 0.8 := rfl
  have hsev : (extract_features_from_bug c3bug).severity = str ("Critical") := rfl
  have hcomp : (extract_features_from_bug c3bug).component = str ("General") := rfl
  norm_num +decide [developer_confidence, developer_score, expertise_contribution,
    module_contribution, workload_contribution, experience_contribution,
    performance_contribution, frank_bf_keywords, frank_bf_complexity, hdom, hlev, hwl,
    hmods, hsr, hsev, hcomp]

/-- Frank's reason string in the scenario. -/
theorem frank_reason_eval :
    developer_reason (extract_features_from_bug c3bug) frankProfile
      = str ("Available capacity") := by
  have hdom : frankProfile.expertise_domains
      = [str ("authentication"), str ("security"), str ("auth")] := by decide
  have hlev : frankProfile.experience_level = str ("mid") := by decide
  have hwl : frankProfile.current_workload = 0 := rfl
  have hmods : frankProfile.modules = [str ("Auth")] := rfl
  have hsr : frankProfile.historical_performance.success_rate = 0.8 := rfl
  have hsev : (extract_features_from_bug c3bug).severity = str ("Critical") := rfl
  have hcomp : (extract_features_from_bug c3bug).component = str ("General") := rfl
  norm_num +decide [developer_reason, joinSep, frank_bf_keywords, hdom, hlev, hwl,
    hmods, hsr, hsev, hcomp]

/-- Full score list of the Frank scenario. -/
theorem frank_scores_eval :
    calculate_developer_scores (extract_features_from_bug c3bug)
      (build_developer_profiles initEngine [c3dev]).1
    = [(str ("Frank"), 159/400, str ("Available capacity"))] := by
  have hprof : (build_developer_profiles initEngine [c3dev]).1
      = [(str ("Frank"), frankProfile)] := rfl
  rw [hprof]
  simp [calculate_developer_scores, raw_scores, sortScoresDesc, insertScore,
    frank_conf_eval, frank_reason_eval]

/-- Confidence of the overloaded profile (workload 20) on the default bug:
the negative load factor drags the score to `-0.15`, and the confidence to
`0.30 - 0.15 * 0.65 = 0.2025`, below the claimed floor of 0.30. -/
theorem w20_conf_eval :
    developer_confidence (extract_features_from_bug exBug) w20Profile = 81/400 := by
  have hsev : (extract_features_from_bug exBug).severity = str ("Medium") := rfl
  norm_num +decide [developer_confidence, developer_score, expertise_contribution,
    module_contribution, workload_contribution, experience_contribution,
    performance_contribution, ex_bf_keywords, ex_bf_complexity, hsev, w20Profile]

/-- Reason string of the overloaded profile: no component fires. -/
theorem w20_reason_eval :
    developer_reason (extract_features_from_bug exBug) w20Profile
      = str ("General assignment based on availability") := by
  have hsev : (extract_features_from_bug exBug).severity = str ("Medium") := rfl
  norm_num +decide [developer_reason, joinSep, ex_bf_keywords, hsev, w20Profile]

/-- Full score list for the overloaded one-developer roster. -/
theorem w20_scores_eval :
    calculate_developer_scores (extract_features_from_bug exBug) [(str ("w"), w20Profile)]
    = [(str ("w"), 81/400, str ("General assignment based on availability"))] := by
  simp [calculate_developer_scores, raw_scores, sortScoresDesc, insertScore,
    w20_conf_eval, w20_reason_eval]

/-- C1 counterexample: a developer with `currentWorkload = 20` (reachable,
since the counter only ever increases) is scored at confidence
`0.2025 < 0.30`, refuting the claimed lower bound for workloads above 10:
the source clamps the score only from above (`min(score, 1.0)`), never from
below, and the load factor is allowed to go negative. -/
theorem c1_counterexample :
    (str ("w"), 81/400, str ("General assignment based on availability"))
      ∈ calculate_developer_scores (extract_features_from_bug exBug)
        [(str ("w"), w20Profile)] ∧
    (81/400 : ℚ) < 0.30 := by
  constructor
  · rw [w20_scores_eval]
    exact List.mem_singleton.mpr rfl
  · norm_num

/-- C1 (amended): every candidate's confidence is at most 0.95, and whenever
every supplied profile's `currentWorkload` is at most 10, every candidate's
confidence also lies at or above 0.30.  (A workload above 10 can push
confidence below 0.30; see the counterexample.) -/
theorem c1_confidence_range_amended (bf : BugFeatures)
    (profiles : List (PyStr × DevProfile)) (name : PyStr) (conf : ℚ) (reason : PyStr)
    (hmem : (name, conf, reason) ∈ calculate_developer_scores bf profiles) :
    conf ≤ 0.95 ∧ ((∀ p ∈ profiles, p.2.current_workload ≤ 10) → 0.30 ≤ conf) := by
  rw [calculate_developer_scores, mem_sortScoresDesc, raw_scores, List.mem_map] at hmem
  obtain ⟨np, hnp, heq⟩ := hmem
  have hconf : conf = developer_confidence bf np.2 := by
    have h := congrArg (fun t : Scored => t.2.1) heq
    simpa using h.symm
  constructor
  · rw [hconf]
    exact developer_confidence_le bf np.2
  · intro hw
    rw [hconf]
    exact developer_confidence_ge (hw np hnp)

/-- C1 witness: the amended bounds instantiated on a concrete scoring call
(one fresh developer, default bug, confidence 0.3975). -/
theorem c1_witness : (159/400 : ℚ) ≤ 0.95 ∧ (0.30 : ℚ) ≤ 159/400 := by
  have h := c1_confidence_range_amended (extract_features_from_bug exBug)
    (build_developer_profiles initEngine [exDev]).1 (str ("a")) (159/400)
    (str ("Available capacity")) (by rw [ex_scores_eval]; exact List.mem_singleton.mpr rfl)
  exact ⟨h.1, h.2 (by decide)⟩

/-- C2 counterexample: on an empty developer list the fallback record has
the right developer, confidence and reason, but carries *no* `alternatives`
key at all (`none` in the model) — not an empty `alternatives` list as the
claim states. -/
theorem c2_counterexample :
    (assign_bug_to_developer initEngine exBug []).1.developer = str ("Unassigned") ∧
    (assign_bug_to_developer initEngine exBug []).1.confidence = 0.30 ∧
    (assign_bug_to_developer initEngine exBug []).1.reason
      = str ("No suitable developer found") ∧
    (assign_bug_to_developer initEngine exBug []).1.alternatives = none ∧
    (assign_bug_to_developer initEngine exBug []).1.alternatives
      ≠ some ([] : List Scored) := by
  refine ⟨rfl, rfl, rfl, rfl, ?_⟩
  decide

/-- C2 (amended): for every engine state and every bug,
`assign_bug_to_developer` with an empty developer list returns exactly the
record `{developer: "Unassigned", confidence: 0.30, reason: "No suitable
developer found"}` with *no* `alternatives` key, leaves the engine state
unchanged, and this is a defined fallback value, not an error. -/
theorem c2_empty_fallback_amended (e : Engine) (bug : RawBug) :
    assign_bug_to_developer e bug [] =
      ({ developer := str ("Unassigned"), confidence := 0.30,
         reason := str ("No suitable developer found"), alternatives := none }, e) := rfl

/-- C3 counterexample: in the Frank scenario the bug's keyword set is empty
("authenticate" does not contain the vocabulary term "authentication") and
the bug's component defaults to "General", which is not among Frank's
modules, so both the claimed module-match (+0.30) and the claimed non-zero
expertise-overlap contributions are 0, and Frank's confidence is 0.3975,
not above 0.60. -/
theorem c3_counterexample :
    calculate_developer_scores (extract_features_from_bug c3bug)
      (build_developer_profiles initEngine [c3dev]).1
      = [(str ("Frank"), 159/400, str ("Available capacity"))] ∧
    expertise_contribution (extract_features_from_bug c3bug).tech_keywords.dedup
      frankProfile.expertise_domains = 0 ∧
    module_contribution (lowerStr (extract_features_from_bug c3bug).component)
      frankProfile.modules = 0 ∧
    ¬ ((0.60 : ℚ) < 159/400) :=
  ⟨frank_scores_eval, frank_expertise_zero, frank_module_zero, by norm_num⟩

/-- C3 (amended): in the Frank scenario neither the module-match nor the
expertise-overlap component contributes; only the workload component fires
(+0.15), and Frank's resulting confidence is exactly 0.3975, strictly below
0.60. -/
theorem c3_scenario_amended :
    calculate_developer_scores (extract_features_from_bug c3bug)
      (build_developer_profiles initEngine [c3dev]).1
      = [(str ("Frank"), 159/400, str ("Available capacity"))] ∧
    developer_confidence (extract_features_from_bug c3bug) frankProfile = 159/400 ∧
    expertise_contribution (extract_features_from_bug c3bug).tech_keywords.dedup
      frankProfile.expertise_domains = 0 ∧
    module_contribution (lowerStr (extract_features_from_bug c3bug).component)
      frankProfile.modules = 0 ∧
    workload_contribution frankProfile.current_workload = 0.15 ∧
    (159/400 : ℚ) < 0.60 := by
  have hwl : frankProfile.current_workload = 0 := rfl
  refine ⟨frank_scores_eval, frank_conf_eval, frank_expertise_zero, frank_module_zero,
    ?_, by norm_num⟩
  rw [hwl]
  norm_num [workload_contribution]

/-- The source's severity-weight lookup agrees with the specification's
wording of the weights (including the default 0.5 for unknown severities). -/
theorem severity_weights_eq_spec (s : PyStr) :
    severity_weights s = spec_severity_weight s := by
  unfold severity_weights spec_severity_weight
  norm_num

/-- C4: the complexity estimator returns
`min(severityWeight + lengthBonus + stackBonus + keywordBonus, 1.0)` with the
weights exactly as claimed (severity Critical=1.0/High=0.75/Medium=0.5/
Low=0.25/unknown=0.5; length bonus 0.3 over 500, 0.15 over 200; stack bonus
0.2 iff non-empty; keyword bonus `min(0.1 * count, 0.3)`), and on
`{severity: "Low", description: "", stackTrace: ""}` with empty title it
returns exactly 0.25. -/
theorem c4_complexity_formula :
    (∀ bug : RawBug, calculate_bug_complexity bug
      = min (spec_severity_weight bug.severity + spec_length_bonus bug
          + spec_stack_bonus bug + spec_keyword_bonus bug) 1.0) ∧
    calculate_bug_complexity { severity := str ("Low") } = 0.25 := by
  constructor
  · intro bug
    have hst : (if 0 < bug.stack_trace.length then (0.2 : ℚ) else 0)
        = (if bug.stack_trace ≠ [] then (0.2 : ℚ) else 0) := by
      rcases h : bug.stack_trace with _ | ⟨c, cs⟩ <;> simp
    simp only [calculate_bug_complexity, spec_length_bonus, spec_stack_bonus,
      spec_keyword_bonus]
    rw [severity_weights_eq_spec, hst]
    congr 1
    rw [mul_comm]
    ring
  · have hkw : extract_technical_keywords (str (" ")) = [] := by decide
    norm_num +decide [calculate_bug_complexity, severity_weights, hkw]

/-- C5: for every bug-features input and every profile map, the score list is
sorted by confidence in non-increasing order, and each confidence class keeps
exactly the relative order of `raw_scores` — the per-profile scores in the
order the profiles were supplied — i.e. the sort is stable, with no secondary
tiebreak key. -/
theorem c5_sorted_stable (bf : BugFeatures) (profiles : List (PyStr × DevProfile)) :
    (calculate_developer_scores bf profiles).Pairwise (fun a b => b.2.1 ≤ a.2.1) ∧
    ∀ q : ℚ, (calculate_developer_scores bf profiles).filter (fun t => decide (t.2.1 = q))
      = (raw_scores bf profiles).filter (fun t => decide (t.2.1 = q)) :=
  ⟨sortScoresDesc_pairwise _, fun q => sortScoresDesc_filter q _⟩

/-- C6: within one engine instance, no sequence of core operations ever
decreases a stored `currentWorkload` counter; an assignment that selects a
winner (a result carrying an `alternatives` key) increments exactly the
winner's counter by exactly 1, leaving all others unchanged; the fallback
assignment, profile building and performance updates leave every counter
unchanged. -/
theorem c6_workload_monotone (e : Engine) (name : PyStr) :
    (∀ ops : List CoreOp, workload_of e name ≤ workload_of (runOps e ops) name) ∧
    (∀ (bug : RawBug) (devs : List RawDev),
      workload_of (assign_bug_to_developer e bug devs).2 name =
        workload_of e name +
          (if (assign_bug_to_developer e bug devs).1.alternatives = none then 0
           else if (assign_bug_to_developer e bug devs).1.developer = name then 1
           else 0)) ∧
    (∀ devs : List RawDev,
      workload_of (build_developer_profiles e devs).2 name = workload_of e name) ∧
    (∀ (d : PyStr) (t : ℚ) (s : Bool),
      workload_of (update_historical_performance e d t s) name = workload_of e name) :=
  ⟨fun ops => runOps_workload_mono ops e name,
   fun bug devs => assign_workload e bug devs name,
   fun devs => build_workload_of e devs name,
   fun d t s => update_workload_of e d t s name⟩

/-- C7: for every bug-features input and every pair of profiles identical
except for `currentWorkload` 0 versus 9, the workload-0 profile receives a
strictly higher confidence (the difference is `0.65 * 0.15 * 0.9 = 0.08775`;
the `min(score, 1.0)` clamp cannot interfere because the other components sum
to at most 0.85). -/
theorem c7_lower_workload_scores_higher (bf : BugFeatures) (p : DevProfile) :
    developer_confidence bf { p with current_workload := 9 }
      < developer_confidence bf { p with current_workload := 0 } := by
  have h1 := expertise_contribution_bounds bf.tech_keywords.dedup p.expertise_domains
  have h2 := module_contribution_bounds (lowerStr bf.component) p.modules
  have h4 := experience_contribution_bounds bf.severity bf.complexity_score
    p.experience_level
  have h5 := performance_contribution_bounds p.historical_performance.success_rate
  have hw0 : workload_contribution 0 = 0.15 := by norm_num [workload_contribution]
  have hw9 : workload_contribution 9 = 3/200 := by norm_num [workload_contribution]
  simp only [developer_confidence, developer_score]
  rw [hw0, hw9]
  rw [min_eq_left (by linarith [h1.2, h2.2, h4.2, h5.2]),
    min_eq_left (by linarith [h1.2, h2.2, h4.2, h5.2])]
  linarith

/-- C8 counterexample: the claimed equality `extract(s) == extract(s.upper())`
fails on the string "expreß".  Python's full case mapping upper-cases
"ß" to "SS", so `"expreß".upper() == "EXPRESS"`, which matches the
vocabulary term "express", while "expreß" itself matches nothing. -/
theorem c8_counterexample :
    extract_technical_keywords (str ("expreß")) = [] ∧
    extract_technical_keywords (upperStr (str ("expreß"))) = [str ("express")] ∧
    extract_technical_keywords (upperStr (str ("expreß")))
      ≠ extract_technical_keywords (str ("expreß")) :=
  ⟨by decide, by decide, by decide⟩

/-- C8 (amended): the extractor lower-cases its input before matching, so
`extract(s.lower()) == extract(s)` holds for every string (lower-casing is
idempotent), and `extract(s.upper()) == extract(s)` holds whenever every code
point of `s` is ASCII; on general strings the upper leg fails, because full
upper-casing can create vocabulary terms (see the counterexample). -/
theorem c8_case_insensitive_amended (s : PyStr) :
    extract_technical_keywords (lowerStr s) = extract_technical_keywords s ∧
    ((∀ c ∈ s, c < 128) →
      extract_technical_keywords (upperStr s) = extract_technical_keywords s) := by
  constructor
  · unfold extract_technical_keywords
    rw [lowerStr_lowerStr]
  · intro h
    unfold extract_technical_keywords
    rw [lowerStr_upperStr_ascii s h]

/-- C8 witness: the amended equalities instantiated on a concrete ASCII
string containing vocabulary terms in mixed case. -/
theorem c8_witness :
    extract_technical_keywords (lowerStr (str ("Express API")))
      = extract_technical_keywords (str ("Express API")) ∧
    extract_technical_keywords (upperStr (str ("Express API")))
      = extract_technical_keywords (str ("Express API")) :=
  ⟨(c8_case_insensitive_amended (str ("Express API"))).1,
   (c8_case_insensitive_amended (str ("Express API"))).2 (by decide)⟩

/-- C9: the expertise-overlap ratio never divides by zero: a positive overlap
(the guard under which the source evaluates `overlap / len(bug_keywords)`)
forces the keyword set to be non-empty, and an empty keyword set makes the
expertise contribution 0 rather than an error. -/
theorem c9_no_div_by_zero (kw domains : List PyStr) :
    (0 < (kw.filter (fun k => decide (k ∈ domains))).length → 0 < kw.length) ∧
    (kw = [] → expertise_contribution kw domains = 0) := by
  constructor
  · intro h
    rcases kw with _ | ⟨k, ks⟩
    · simp at h
    · simp
  · intro h
    subst h
    simp [expertise_contribution]

/-- C9 witness: the empty keyword set yields an expertise contribution of 0. -/
theorem c9_witness : expertise_contribution [] [str ("api")] = 0 :=
  (c9_no_div_by_zero [] [str ("api")]).2 rfl

/-- C10: in every non-fallback result, the winner's reported confidence is
the full-precision confidence of the top-ranked candidate rounded to two
decimal places, and each alternative's confidence is likewise rounded, while
ranking itself (the hypothesis' sorted score list) uses the unrounded
values. -/
theorem c10_confidence_rounding (e : Engine) (bug : RawBug) (devs : List RawDev)
    (best : PyStr) (conf : ℚ) (reason : PyStr) (rest : List Scored)
    (h : calculate_developer_scores (extract_features_from_bug bug)
      (build_developer_profiles e devs).1 = (best, conf, reason) :: rest) :
    (assign_bug_to_developer e bug devs).1.developer = best ∧
    (assign_bug_to_developer e bug devs).1.confidence = round2 conf ∧
    (assign_bug_to_developer e bug devs).1.alternatives
      = some ((rest.take 3).map (fun t => (t.1, round2 t.2.1, t.2.2))) := by
  simp [assign_bug_to_developer, h]

/-- C10 witness: the rounding theorem instantiated on a concrete assignment
(single developer, default bug, full-precision confidence 0.3975). -/
theorem c10_witness :
    (assign_bug_to_developer initEngine exBug [exDev]).1.confidence = round2 (159/400) ∧
    (assign_bug_to_developer initEngine exBug [exDev]).1.alternatives
      = some ([] : List Scored) := by
  have h := c10_confidence_rounding initEngine exBug [exDev] (str ("a")) (159/400)
    (str ("Available capacity")) [] ex_scores_eval
  refine ⟨h.2.1, ?_⟩
  rw [h.2.2]
  simp
